import Mathlib

/-
Verification of the DMARC record resolution and parsing engine in
`gs/dmarc/lookup.py` (repository `gs.dmarc`).

The Python module is embedded shallowly:
  * the four enumerations become Lean inductives;
  * the dynamically typed attributes of the `Dmarc` object become a `Value`
    sum type held in a `DmarcState` record (Python stores strings, ints,
    enum members, lists of `ReportAddress`, or `None` in these slots);
  * raised exceptions become an `Err` inductive carried by `Except`;
  * the DNS resolver (`dns.resolver.query`) and the public-suffix list are
    injected as functions, mirroring their role as external capabilities;
  * string operations (`split`, `strip`, `startswith`, `int(...)`) are
    re-implemented over `List Char` with Python semantics.
-/

set_option autoImplicit false
set_option maxRecDepth 4000

namespace GsDmarc

/-- An enumeration of the different receiver policies in DMARC
    (`ReceiverPolicy` in `gs/dmarc/lookup.py`). -/
inductive ReceiverPolicy where
  | noDmarc
  | none
  | quarantine
  | reject
  deriving DecidableEq, Repr

/-- The `AlignmentMode` enumeration in `gs/dmarc/lookup.py`. -/
inductive AlignmentMode where
  | relaxed
  | strict
  deriving DecidableEq, Repr

/-- The `FailureReporting` enumeration in `gs/dmarc/lookup.py`. -/
inductive FailureReporting where
  | all
  | any
  | dkim
  | spf
  deriving DecidableEq, Repr

/-- A decoded `rua`/`ruf` entry (`ReportAddress` in `gs/dmarc/lookup.py`).
    Field `plain_address` mirrors `self._plain_address`. -/
structure ReportAddress where
  plain_address : String
  address : String
  size_limit : Option String
  deriving DecidableEq, Repr

/-- A Python value that can live in one of the `Dmarc` object's attributes. -/
inductive Value where
  | vnone
  | vstr (s : String)
  | vint (n : Int)
  | vpolicy (p : ReceiverPolicy)
  | valign (a : AlignmentMode)
  | vfail (f : FailureReporting)
  | vaddrs (l : List ReportAddress)
  deriving DecidableEq, Repr

/-- The exceptions the module can raise.  `unknownVersion` and `policyNotSet`
    are the two explicit `raise Exception(...)` sites in
    `lookup_receiver_policy` ("Unknown DMARC version in record (…)" and
    "DMARC policy not set"); `keyError` models Python `KeyError` from
    `mapping[key]` / `AlignmentMode[value]`; `valueError` models `int(value)`
    failing; `indexError` models `t[1]` on a segment without `=`;
    `lookupFailure` models a DNS exception other than `NXDOMAIN`/`NoAnswer`
    propagating out of `dns_query`. -/
inductive Err where
  | unknownVersion (record : String)
  | policyNotSet
  | keyError (k : String)
  | valueError (s : String)
  | indexError
  | lookupFailure
  deriving DecidableEq, Repr

/-- Outcome of `dns_query(dmarcHost, 'TXT')`: either the first answer,
    rendered as `str(dnsAnswer[0])` (double quotes included), or the
    `NXDOMAIN` / `NoAnswer` exceptions the code catches, or any other
    DNS exception (which the code does not catch). -/
inductive DnsResult where
  | found (answer : String)
  | nxdomain
  | noAnswer
  | failure
  deriving DecidableEq, Repr

/-- The mutable attributes of a `Dmarc` instance (see `Dmarc.__init__`). -/
structure DmarcState where
  record : Value
  version : Value
  policy : Value
  subdomain_policy : Value
  adkim : Value
  aspf : Value
  percent : Value
  rua : Value
  ri : Value
  rf : Value
  ruf : Value
  failure_reporting : Value
  parsed_record : List (String × String)
  psl : Option (String → String)

/-- Model of `Dmarc.__init__`: the initial attribute values. -/
def initDmarc : DmarcState :=
  { record := Value.vnone
    version := Value.vnone
    policy := Value.vnone
    subdomain_policy := Value.vnone
    adkim := Value.valign AlignmentMode.relaxed
    aspf := Value.valign AlignmentMode.relaxed
    percent := Value.vnone
    rua := Value.vnone
    ri := Value.vint 86400
    rf := Value.vstr "afrf"
    ruf := Value.vnone
    failure_reporting := Value.vfail FailureReporting.all
    parsed_record := []
    psl := Option.none }

/-- Python truthiness (`if not self.percent`, `if not self.policy`) for the
    values that can occupy a `Dmarc` attribute.  Enum members are truthy in
    Python regardless of their numeric value. -/
def pyTruthy : Value → Bool
  | Value.vnone => false
  | Value.vstr s => !(s = "")
  | Value.vint n => !(n = 0)
  | Value.vpolicy _ => true
  | Value.valign _ => true
  | Value.vfail _ => true
  | Value.vaddrs l => !l.isEmpty

/-- Python `s.split(sep)` for a one-character separator:
    `"".split(s) == [""]`, separators at the ends produce empty chunks. -/
def pySplit (sep : Char) : List Char → List (List Char)
  | [] => [[]]
  | c :: rest =>
    if c = sep then
      [] :: pySplit sep rest
    else
      match pySplit sep rest with
      | [] => [[c]]
      | chunk :: chunks => (c :: chunk) :: chunks

/-- Python `s.strip(chars)`: drop characters satisfying `p` from both ends. -/
def pyStrip (p : Char → Bool) (l : List Char) : List Char :=
  ((l.dropWhile p).reverse.dropWhile p).reverse

/-- The whitespace characters stripped by Python's no-argument `str.strip()`. -/
def isPySpace (c : Char) : Bool :=
  c = ' ' || c = '\t' || c = '\n' || c = '\r' || c.toNat = 11 || c.toNat = 12

/-- Python `s.startswith(pre)`, with the candidate prefix first. -/
def startsWithL : List Char → List Char → Bool
  | [], _ => true
  | _ :: _, [] => false
  | p :: ps, c :: cs => p = c && startsWithL ps cs

/-- The value of a base-10 digit string, `Option.none` when a character is
    not a digit or the string is empty. -/
def decDigits : List Char → Option Nat
  | [] => Option.none
  | l =>
    if l.all (fun c => c.isDigit) then
      Option.some (l.foldl (fun a c => a * 10 + (c.toNat - 48)) 0)
    else
      Option.none

/-- Python `int(value)` on a string: surrounding whitespace, an optional
    sign, then decimal digits; `ValueError` otherwise. -/
def pyInt (s : String) : Except Err Int :=
  match pyStrip isPySpace s.data with
  | '+' :: ds =>
    match decDigits ds with
    | Option.some n => Except.ok (Int.ofNat n)
    | Option.none => Except.error (Err.valueError s)
  | '-' :: ds =>
    match decDigits ds with
    | Option.some n => Except.ok (-(Int.ofNat n : Int))
    | Option.none => Except.error (Err.valueError s)
  | ds =>
    match decDigits ds with
    | Option.some n => Except.ok (Int.ofNat n)
    | Option.none => Except.error (Err.valueError s)

/-- Model of `hasattr(ReceiverPolicy, value)` / `ReceiverPolicy[value]`, modelled as a
    table of the enumeration's member names. -/
def receiverPolicyOfName : String → Option ReceiverPolicy
  | "noDmarc" => Option.some ReceiverPolicy.noDmarc
  | "none" => Option.some ReceiverPolicy.none
  | "quarantine" => Option.some ReceiverPolicy.quarantine
  | "reject" => Option.some ReceiverPolicy.reject
  | _ => Option.none

/-- Model of `hasattr(AlignmentMode, value)` / `AlignmentMode[value]`. -/
def alignmentModeOfName : String → Option AlignmentMode
  | "relaxed" => Option.some AlignmentMode.relaxed
  | "strict" => Option.some AlignmentMode.strict
  | _ => Option.none

/-- Model of `hasattr(FailureReporting, value)` / `FailureReporting[value]`. -/
def failureReportingOfName : String → Option FailureReporting
  | "all" => Option.some FailureReporting.all
  | "any" => Option.some FailureReporting.any
  | "dkim" => Option.some FailureReporting.dkim
  | "spf" => Option.some FailureReporting.spf
  | _ => Option.none

/-- One step of Python `dict(pairs)`: a later pair overwrites an earlier
    pair with the same key in place, otherwise it is appended. -/
def pyDictInsert (d : List (String × String)) (kv : String × String) :
    List (String × String) :=
  if d.any (fun q => q.1 = kv.1) then
    d.map (fun q => if q.1 = kv.1 then kv else q)
  else
    d ++ [kv]

/-- Python `dict(pairs)` as an association list: last occurrence of a key
    wins, first-insertion order is kept. -/
def pyDict (pairs : List (String × String)) : List (String × String) :=
  pairs.foldl pyDictInsert []

/-- Membership test `key in dict`. -/
def dictHas (d : List (String × String)) (k : String) : Bool :=
  d.any (fun q => q.1 = k)

/-- Lookup `dict[key]` as an `Option`. -/
def dictGet (d : List (String × String)) (k : String) : Option String :=
  (d.find? (fun q => q.1 = k)).map Prod.snd

/-- The `tags` list comprehension in `Dmarc.__answer_to_dict`:
    `(t[0].strip(), t[1].strip())` for each raw tag; `t[1]` raises
    `IndexError` when the segment contains no `=`. -/
def decodeRawTags : List (List (List Char)) → Except Err (List (String × String))
  | [] => Except.ok []
  | t :: rest =>
    match t with
    | t0 :: t1 :: _ =>
      match decodeRawTags rest with
      | Except.ok tags =>
          Except.ok (((⟨pyStrip isPySpace t0⟩ : String),
                      (⟨pyStrip isPySpace t1⟩ : String)) :: tags)
      | Except.error e => Except.error e
    | _ => Except.error Err.indexError

/-- Model of `Dmarc.__answer_to_dict`: turn the DNS DMARC answer into a dict of
    tag:value pairs.  `answer.strip('"').strip(' ')`, split on `;`,
    keep non-empty segments, split each on every `=`, pair up the first
    two chunks, build a dict. -/
def answer_to_dict (answer : String) : Except Err (List (String × String)) :=
  let a := pyStrip (fun c => c = ' ') (pyStrip (fun c => c = '"') answer.data)
  let rawTags := ((pySplit ';' a).filter (fun t => !t.isEmpty)).map (pySplit '=')
  match decodeRawTags rawTags with
  | Except.ok tags => Except.ok (pyDict tags)
  | Except.error e => Except.error e

/-- Model of `ReportAddress.__init__`: split the raw token on `!`; the first
    chunk is the address and, exactly when the split yields two chunks, the
    second chunk is the size limit.  `chunks[0]` would raise `IndexError`
    only on an empty chunk list. -/
def mkReportAddressE (address : String) : Except Err ReportAddress :=
  let chunks := (pySplit '!' address.data).map (fun l => (⟨l⟩ : String))
  match chunks with
  | [] => Except.error Err.indexError
  | [c0, c1] =>
      Except.ok { plain_address := address, address := c0,
                  size_limit := Option.some c1 }
  | c0 :: _ =>
      Except.ok { plain_address := address, address := c0,
                  size_limit := Option.none }

/-- The `[ReportAddress(i) for i in value.split(",")]` comprehension. -/
def decodeAddresses : List String → Except Err (List ReportAddress)
  | [] => Except.ok []
  | a :: rest =>
    match mkReportAddressE a with
    | Except.ok r =>
      match decodeAddresses rest with
      | Except.ok rs => Except.ok (r :: rs)
      | Except.error e => Except.error e
    | Except.error e => Except.error e

/-- Model of `setattr(self, mapping[key], value)` with the literal `mapping` dict of
    `Dmarc.__map_record_fields`; an unrecognized tag raises `KeyError` at
    `mapping[key]`. -/
def setField (st : DmarcState) (key : String) (v : Value) :
    Except Err DmarcState :=
  if key = "v" then Except.ok { st with version := v }
  else if key = "p" then Except.ok { st with policy := v }
  else if key = "sp" then Except.ok { st with subdomain_policy := v }
  else if key = "adkim" then Except.ok { st with adkim := v }
  else if key = "aspf" then Except.ok { st with aspf := v }
  else if key = "pct" then Except.ok { st with percent := v }
  else if key = "rua" then Except.ok { st with rua := v }
  else if key = "ri" then Except.ok { st with ri := v }
  else if key = "rf" then Except.ok { st with rf := v }
  else if key = "ruf" then Except.ok { st with ruf := v }
  else if key = "fo" then Except.ok { st with failure_reporting := v }
  else Except.error (Err.keyError key)

/-- One iteration of the `for key, value in record_dict.items()` loop in
    `Dmarc.__map_record_fields`: the per-tag coercion `if`s followed by
    `setattr(self, mapping[key], value)`.  The alignment condition in the
    source reads `key == "aspf" or key == "adkim" and hasattr(AlignmentMode,
    value)`, which by Python precedence guards only the `adkim` branch with
    the `hasattr` test — so an unrecognized `aspf` value reaches
    `AlignmentMode[value]` and raises `KeyError`, while an unrecognized
    `adkim` value is stored as the raw string.  The branches below spell
    that precedence out. -/
def applyTag : DmarcState → String × String → Except Err DmarcState
  | st, (key, value) =>
    if key = "p" ∨ key = "sp" then
      match receiverPolicyOfName value with
      | Option.some p => setField st key (Value.vpolicy p)
      | Option.none => setField st key (Value.vpolicy ReceiverPolicy.noDmarc)
    else if key = "pct" ∨ key = "ri" then
      match pyInt value with
      | Except.ok n => setField st key (Value.vint n)
      | Except.error e => Except.error e
    else if key = "rua" ∨ key = "ruf" then
      match decodeAddresses ((pySplit ',' value.data).map
          (fun l => (⟨l⟩ : String))) with
      | Except.ok addrs => setField st key (Value.vaddrs addrs)
      | Except.error e => Except.error e
    else if key = "aspf" then
      match alignmentModeOfName value with
      | Option.some a => setField st key (Value.valign a)
      | Option.none => Except.error (Err.keyError value)
    else if key = "adkim" then
      match alignmentModeOfName value with
      | Option.some a => setField st key (Value.valign a)
      | Option.none => setField st key (Value.vstr value)
    else if key = "fo" then
      match failureReportingOfName value with
      | Option.some f => setField st key (Value.vfail f)
      | Option.none => setField st key (Value.vstr value)
    else
      setField st key (Value.vstr value)

/-- Model of `Dmarc.__map_record_fields`: fold the per-tag step over the parsed dict
    (Python iterates `record_dict.items()`; each key sets a distinct
    attribute, so the final state does not depend on iteration order). -/
def map_record_fields : DmarcState → List (String × String) →
    Except Err DmarcState
  | st, [] => Except.ok st
  | st, kv :: rest =>
    match applyTag st kv with
    | Except.ok st' => map_record_fields st' rest
    | Except.error e => Except.error e

/-- Model of `Dmarc.should_check`, with the `random.randint(0, 99)` draw passed in
    explicitly.  `percent` only ever holds `None` or an `int` in reachable
    states; the remaining `Value` cases are unreachable and default to
    `true`. -/
def should_check (st : DmarcState) (draw : Int) : Bool :=
  if !pyTruthy st.percent then true
  else
    match st.percent with
    | Value.vint n => decide (draw < n)
    | _ => true

/-- Model of `Dmarc.lookup_receiver_policy`: query `'_dmarc.' + host` through the
    injected DNS capability, treat `NXDOMAIN`/`NoAnswer` as the `noDmarc`
    sentinel, check the `"v=DMARC1` prefix, parse and decode the answer,
    and return `self.policy` (falsy `policy` raises "DMARC policy not
    set").  The returned pair is the mutated `self` plus the return
    value. -/
def lookup_receiver_policy (st : DmarcState) (dns : String → DnsResult)
    (host : String) : Except Err (DmarcState × Value) :=
  let dmarcHost := "_dmarc." ++ host
  match dns dmarcHost with
  | DnsResult.nxdomain => Except.ok (st, Value.vpolicy ReceiverPolicy.noDmarc)
  | DnsResult.noAnswer => Except.ok (st, Value.vpolicy ReceiverPolicy.noDmarc)
  | DnsResult.failure => Except.error Err.lookupFailure
  | DnsResult.found ans =>
    let st := { st with record := Value.vstr ans }
    if startsWithL "\"v=DMARC1".data ans.data then
      match answer_to_dict ans with
      | Except.error e => Except.error e
      | Except.ok d =>
        let st := { st with parsed_record := d }
        match map_record_fields st d with
        | Except.error e => Except.error e
        | Except.ok st =>
          if pyTruthy st.policy then Except.ok (st, st.policy)
          else Except.error Err.policyNotSet
    else
      Except.error (Err.unknownVersion ans)

/-- Model of `Dmarc.__receiver_policy`: strip a literal `_dmarc.` ahead of the host,
    look the host up, and on the `noDmarc` sentinel fall back to one lookup
    of the organizational domain computed by the public-suffix list.
    `filePsl` stands for the `PublicSuffixList` loaded from
    `suffixlist.txt` when none was injected via
    `set_public_suffix_list`. -/
def receiver_policy (st : DmarcState) (dns : String → DnsResult)
    (filePsl : String → String) (host : String) :
    Except Err (DmarcState × Value) :=
  let hostSansDmarc :=
    if host.data.take 7 ≠ "_dmarc.".data then host
    else (⟨host.data.drop 7⟩ : String)
  match lookup_receiver_policy st dns hostSansDmarc with
  | Except.error e => Except.error e
  | Except.ok (st1, retval) =>
    if retval = Value.vpolicy ReceiverPolicy.noDmarc then
      let st2 :=
        if st1.psl.isSome then st1
        else { st1 with psl := Option.some filePsl }
      let psl := st1.psl.getD filePsl
      lookup_receiver_policy st2 dns (psl hostSansDmarc)
    else
      Except.ok (st1, retval)

/-- The DNS names queried by `receiver_policy`, in order: an instrumentation
    of the same control flow, used to state that at most two lookups ever
    happen (`'_dmarc.' + host` is the name `lookup_receiver_policy` hands to
    `dns_query`). -/
def receiver_policy_queries (st : DmarcState) (dns : String → DnsResult)
    (filePsl : String → String) (host : String) : List String :=
  let hostSansDmarc :=
    if host.data.take 7 ≠ "_dmarc.".data then host
    else (⟨host.data.drop 7⟩ : String)
  match lookup_receiver_policy st dns hostSansDmarc with
  | Except.error _ => ["_dmarc." ++ hostSansDmarc]
  | Except.ok (st1, retval) =>
    if retval = Value.vpolicy ReceiverPolicy.noDmarc then
      let psl := st1.psl.getD filePsl
      ["_dmarc." ++ hostSansDmarc, "_dmarc." ++ psl hostSansDmarc]
    else
      ["_dmarc." ++ hostSansDmarc]

/-- Model of `isinstance(retval, ReceiverPolicy)`: the shape checked by the `assert`
    at the end of `lookup_receiver_policy`. -/
def isReceiverPolicyValue : Value → Bool
  | Value.vpolicy _ => true
  | _ => false

/-- The `policy` attribute only ever holds `None` or a `ReceiverPolicy`
    member in states reachable from `initDmarc` (only the `p` tag writes
    it, and the `p` branch always coerces to an enumeration member). -/
def policyInv (st : DmarcState) : Prop :=
  st.policy = Value.vnone ∨ ∃ p : ReceiverPolicy, st.policy = Value.vpolicy p

/-! ### Concrete records, oracles and states used by witnesses and
counterexamples -/

/-- A first DNS answer carrying a `rua` tag. -/
def ansA : String := "\"v=DMARC1; p=reject; rua=mailto:a@x\""

/-- A second DNS answer carrying no `rua` tag. -/
def ansB : String := "\"v=DMARC1; p=none\""

def dnsA : String → DnsResult := fun _ => DnsResult.found ansA

def dnsB : String → DnsResult := fun _ => DnsResult.found ansB

/-- The `Dmarc` state after resolving `ansA` from the initial state. -/
def stA : DmarcState :=
  { initDmarc with
    record := Value.vstr ansA
    parsed_record := [("v", "DMARC1"), ("p", "reject"), ("rua", "mailto:a@x")]
    version := Value.vstr "DMARC1"
    policy := Value.vpolicy ReceiverPolicy.reject
    rua := Value.vaddrs [{ plain_address := "mailto:a@x",
                           address := "mailto:a@x",
                           size_limit := Option.none }] }

/-- The `Dmarc` state after then resolving `ansB` on the same object:
    `rua` still carries the address decoded from `ansA`. -/
def stB : DmarcState :=
  { stA with
    record := Value.vstr ansB
    parsed_record := [("v", "DMARC1"), ("p", "none")]
    policy := Value.vpolicy ReceiverPolicy.none }

/-- The state after applying just a `p=none` tag to the initial state. -/
def stC2w : DmarcState := { initDmarc with policy := Value.vpolicy ReceiverPolicy.none }

/-- An answer that passes the version check, has no `p` tag, and whose
    `pct` value is not numeric. -/
def ans4 : String := "\"v=DMARC1; pct=abc\""

def dns4 : String → DnsResult := fun _ => DnsResult.found ans4

/-- An answer that passes the version check, decodes cleanly, and has no
    `p` tag. -/
def ans4w : String := "\"v=DMARC1; sp=reject\""

def dns4w : String → DnsResult := fun _ => DnsResult.found ans4w

def d4w : List (String × String) := [("v", "DMARC1"), ("sp", "reject")]

/-- The state reached after mapping `d4w` over the initial state (with the
    raw record and parsed dict already stored). -/
def st4w : DmarcState :=
  { initDmarc with
    record := Value.vstr ans4w
    parsed_record := d4w
    version := Value.vstr "DMARC1"
    subdomain_policy := Value.vpolicy ReceiverPolicy.reject }

/-- An answer whose `v=DMARC1` tag is not first. -/
def ans5 : String := "p=none; v=DMARC1"

def dns5 : String → DnsResult := fun _ => DnsResult.found ans5

/-- An injected public-suffix resolver. -/
def pslW : String → String := fun _ => "example.com"

/-- A DNS capability with no record on the exact host but a `quarantine`
    record on the organizational domain. -/
def dnsW : String → DnsResult := fun n =>
  if n = "_dmarc.sub.example.com" then DnsResult.nxdomain
  else DnsResult.found "\"v=DMARC1; p=quarantine\""

/-- The initial state with the suffix resolver injected via
    `set_public_suffix_list`. -/
def stP : DmarcState := { initDmarc with psl := Option.some pslW }

def dns7 : String → DnsResult := fun _ => DnsResult.nxdomain

/-- A state whose record carries `pct=100`. -/
def st8 : DmarcState := { initDmarc with percent := Value.vint 100 }

/-- An answer whose `p` value is not a `ReceiverPolicy` member name. -/
def ans9 : String := "\"v=DMARC1; p=bogus\""

def dns9 : String → DnsResult := fun _ => DnsResult.found ans9

/-- The state after decoding `ans9`: the unrecognized `p` value degrades to
    the `noDmarc` sentinel. -/
def st9 : DmarcState :=
  { initDmarc with
    record := Value.vstr ans9
    parsed_record := [("v", "DMARC1"), ("p", "bogus")]
    version := Value.vstr "DMARC1"
    policy := Value.vpolicy ReceiverPolicy.noDmarc }

/-! ### List-level helper lemmas about the Python string primitives -/

theorem pySplit_ne_nil (sep : Char) (l : List Char) : pySplit sep l ≠ [] := by
  cases l with
  | nil => simp [pySplit]
  | cons c rest =>
    unfold pySplit
    split
    · simp
    · split <;> simp

theorem pySplit_no_sep (sep : Char) (l : List Char)
    (h : ∀ c ∈ l, c ≠ sep) : pySplit sep l = [l] := by
  induction l with
  | nil => rfl
  | cons c rest ih =>
    have hc : c ≠ sep := h c (List.mem_cons_self c rest)
    have hrest : ∀ x ∈ rest, x ≠ sep := fun x hx => h x (List.mem_cons_of_mem c hx)
    unfold pySplit
    rw [if_neg hc, ih hrest]

theorem pySplit_cons_of_ne (sep : Char) (c : Char) (rest : List Char)
    (hc : c ≠ sep) (ch : List Char) (chs : List (List Char))
    (h : pySplit sep rest = ch :: chs) :
    pySplit sep (c :: rest) = (c :: ch) :: chs := by
  unfold pySplit
  rw [if_neg hc, h]

theorem pySplit_sep_append (sep : Char) (xs ys : List Char)
    (h : ∀ c ∈ xs, c ≠ sep) :
    pySplit sep (xs ++ sep :: ys) = xs :: pySplit sep ys := by
  induction xs with
  | nil => simp [pySplit]
  | cons a xs ih =>
    have ha : a ≠ sep := h a (List.mem_cons_self a xs)
    have hxs : ∀ x ∈ xs, x ≠ sep := fun x hx => h x (List.mem_cons_of_mem a hx)
    rw [List.cons_append]
    exact pySplit_cons_of_ne sep a _ ha _ _ (ih hxs)

theorem dropWhile_all_false (p : Char → Bool) (l : List Char)
    (h : ∀ x ∈ l, p x = false) : l.dropWhile p = l := by
  cases l with
  | nil => rfl
  | cons a t =>
    rw [List.dropWhile_cons, h a (List.mem_cons_self a t)]
    simp

theorem pyStrip_all_false (p : Char → Bool) (l : List Char)
    (h : ∀ x ∈ l, p x = false) : pyStrip p l = l := by
  unfold pyStrip
  rw [dropWhile_all_false p l h,
    dropWhile_all_false p l.reverse (fun x hx => h x (List.mem_reverse.mp hx)),
    List.reverse_reverse]

theorem pyStrip_wrap (p : Char → Bool) (c : Char) (m : List Char)
    (hc : p c = true) (h : ∀ x ∈ m, p x = false) :
    pyStrip p (c :: (m ++ [c])) = m := by
  unfold pyStrip
  rw [List.dropWhile_cons, hc, if_pos rfl]
  cases m with
  | nil => simp [hc]
  | cons a t =>
    rw [List.cons_append, List.dropWhile_cons, h a (by simp)]
    simp only [Bool.false_eq_true, ite_false]
    rw [show (a :: (t ++ [c])).reverse = c :: (a :: t).reverse by simp]
    rw [List.dropWhile_cons, hc, if_pos rfl]
    rw [dropWhile_all_false p (a :: t).reverse
      (fun x hx => h x (List.mem_reverse.mp hx))]
    simp

/-! ### State-preservation lemmas about the record decoder -/

theorem setField_veq (st : DmarcState) (v : Value) :
    setField st "v" v = Except.ok { st with version := v } := rfl

theorem setField_peq (st : DmarcState) (v : Value) :
    setField st "p" v = Except.ok { st with policy := v } := rfl

theorem setField_speq (st : DmarcState) (v : Value) :
    setField st "sp" v = Except.ok { st with subdomain_policy := v } := rfl

theorem setField_adkimeq (st : DmarcState) (v : Value) :
    setField st "adkim" v = Except.ok { st with adkim := v } := rfl

theorem setField_aspfeq (st : DmarcState) (v : Value) :
    setField st "aspf" v = Except.ok { st with aspf := v } := rfl

theorem setField_pcteq (st : DmarcState) (v : Value) :
    setField st "pct" v = Except.ok { st with percent := v } := rfl

theorem setField_ruaeq (st : DmarcState) (v : Value) :
    setField st "rua" v = Except.ok { st with rua := v } := rfl

theorem setField_rieq (st : DmarcState) (v : Value) :
    setField st "ri" v = Except.ok { st with ri := v } := rfl

theorem setField_rfeq (st : DmarcState) (v : Value) :
    setField st "rf" v = Except.ok { st with rf := v } := rfl

theorem setField_rufeq (st : DmarcState) (v : Value) :
    setField st "ruf" v = Except.ok { st with ruf := v } := rfl

theorem setField_foeq (st : DmarcState) (v : Value) :
    setField st "fo" v = Except.ok { st with failure_reporting := v } := rfl

theorem setField_unknown (st : DmarcState) (key : String) (v : Value)
    (h1 : key ≠ "v") (h2 : key ≠ "p") (h3 : key ≠ "sp") (h4 : key ≠ "adkim")
    (h5 : key ≠ "aspf") (h6 : key ≠ "pct") (h7 : key ≠ "rua")
    (h8 : key ≠ "ri") (h9 : key ≠ "rf") (h10 : key ≠ "ruf")
    (h11 : key ≠ "fo") :
    setField st key v = Except.error (Err.keyError key) := by
  unfold setField
  rw [if_neg h1, if_neg h2, if_neg h3, if_neg h4, if_neg h5, if_neg h6,
    if_neg h7, if_neg h8, if_neg h9, if_neg h10, if_neg h11]

theorem setField_preserves_rua (st st' : DmarcState) (key : String) (v : Value)
    (hk : key ≠ "rua") (h : setField st key v = Except.ok st') :
    st'.rua = st.rua := by
  by_cases h1 : key = "v"
  · subst h1; rw [setField_veq] at h; cases h; rfl
  by_cases h2 : key = "p"
  · subst h2; rw [setField_peq] at h; cases h; rfl
  by_cases h3 : key = "sp"
  · subst h3; rw [setField_speq] at h; cases h; rfl
  by_cases h4 : key = "adkim"
  · subst h4; rw [setField_adkimeq] at h; cases h; rfl
  by_cases h5 : key = "aspf"
  · subst h5; rw [setField_aspfeq] at h; cases h; rfl
  by_cases h6 : key = "pct"
  · subst h6; rw [setField_pcteq] at h; cases h; rfl
  by_cases h8 : key = "ri"
  · subst h8; rw [setField_rieq] at h; cases h; rfl
  by_cases h9 : key = "rf"
  · subst h9; rw [setField_rfeq] at h; cases h; rfl
  by_cases h10 : key = "ruf"
  · subst h10; rw [setField_rufeq] at h; cases h; rfl
  by_cases h11 : key = "fo"
  · subst h11; rw [setField_foeq] at h; cases h; rfl
  rw [setField_unknown st key v h1 h2 h3 h4 h5 h6 hk h8 h9 h10 h11] at h
  cases h

theorem setField_preserves_policy (st st' : DmarcState) (key : String)
    (v : Value) (hk : key ≠ "p") (h : setField st key v = Except.ok st') :
    st'.policy = st.policy := by
  by_cases h1 : key = "v"
  · subst h1; rw [setField_veq] at h; cases h; rfl
  by_cases h3 : key = "sp"
  · subst h3; rw [setField_speq] at h; cases h; rfl
  by_cases h4 : key = "adkim"
  · subst h4; rw [setField_adkimeq] at h; cases h; rfl
  by_cases h5 : key = "aspf"
  · subst h5; rw [setField_aspfeq] at h; cases h; rfl
  by_cases h6 : key = "pct"
  · subst h6; rw [setField_pcteq] at h; cases h; rfl
  by_cases h7 : key = "rua"
  · subst h7; rw [setField_ruaeq] at h; cases h; rfl
  by_cases h8 : key = "ri"
  · subst h8; rw [setField_rieq] at h; cases h; rfl
  by_cases h9 : key = "rf"
  · subst h9; rw [setField_rfeq] at h; cases h; rfl
  by_cases h10 : key = "ruf"
  · subst h10; rw [setField_rufeq] at h; cases h; rfl
  by_cases h11 : key = "fo"
  · subst h11; rw [setField_foeq] at h; cases h; rfl
  rw [setField_unknown st key v h1 hk h3 h4 h5 h6 h7 h8 h9 h10 h11] at h
  cases h

theorem applyTag_preserves_rua (st st' : DmarcState) (key value : String)
    (hk : key ≠ "rua") (h : applyTag st (key, value) = Except.ok st') :
    st'.rua = st.rua := by
  simp only [applyTag] at h
  split_ifs at h <;>
    (try split at h) <;>
    first
      | exact setField_preserves_rua st st' key _ hk h
      | cases h

theorem applyTag_preserves_policy (st st' : DmarcState) (key value : String)
    (hk : key ≠ "p") (h : applyTag st (key, value) = Except.ok st') :
    st'.policy = st.policy := by
  simp only [applyTag] at h
  split_ifs at h <;>
    (try split at h) <;>
    first
      | exact setField_preserves_policy st st' key _ hk h
      | cases h

theorem map_record_fields_preserves_rua (d : List (String × String)) :
    ∀ st st', (∀ kv ∈ d, kv.1 ≠ "rua") →
      map_record_fields st d = Except.ok st' → st'.rua = st.rua := by
  induction d with
  | nil =>
    intro st st' _ h
    cases h
    rfl
  | cons kv rest ih =>
    intro st st' hd h
    obtain ⟨key, value⟩ := kv
    unfold map_record_fields at h
    cases happ : applyTag st (key, value) with
    | ok st1 =>
      rw [happ] at h
      have h1 : st1.rua = st.rua :=
        applyTag_preserves_rua st st1 key value
          (hd (key, value) (List.mem_cons_self _ _)) happ
      have h2 : st'.rua = st1.rua :=
        ih st1 st' (fun q hq => hd q (List.mem_cons_of_mem _ hq)) h
      rw [h2, h1]
    | error e =>
      rw [happ] at h
      cases h

theorem map_record_fields_preserves_policy (d : List (String × String)) :
    ∀ st st', (∀ kv ∈ d, kv.1 ≠ "p") →
      map_record_fields st d = Except.ok st' → st'.policy = st.policy := by
  induction d with
  | nil =>
    intro st st' _ h
    cases h
    rfl
  | cons kv rest ih =>
    intro st st' hd h
    obtain ⟨key, value⟩ := kv
    unfold map_record_fields at h
    cases happ : applyTag st (key, value) with
    | ok st1 =>
      rw [happ] at h
      have h1 : st1.policy = st.policy :=
        applyTag_preserves_policy st st1 key value
          (hd (key, value) (List.mem_cons_self _ _)) happ
      have h2 : st'.policy = st1.policy :=
        ih st1 st' (fun q hq => hd q (List.mem_cons_of_mem _ hq)) h
      rw [h2, h1]
    | error e =>
      rw [happ] at h
      cases h

theorem applyTag_policyInv (st st' : DmarcState) (key value : String)
    (hinv : policyInv st) (h : applyTag st (key, value) = Except.ok st') :
    policyInv st' := by
  by_cases hk : key = "p"
  · subst hk
    simp only [applyTag] at h
    simp only [true_or, if_true] at h
    split at h
    all_goals rw [setField_peq] at h
    all_goals
      cases h
      exact Or.inr ⟨_, rfl⟩
  · have := applyTag_preserves_policy st st' key value hk h
    unfold policyInv
    rw [this]
    exact hinv

theorem map_record_fields_policyInv (d : List (String × String)) :
    ∀ st st', policyInv st → map_record_fields st d = Except.ok st' →
      policyInv st' := by
  induction d with
  | nil =>
    intro st st' hinv h
    cases h
    exact hinv
  | cons kv rest ih =>
    intro st st' hinv h
    obtain ⟨key, value⟩ := kv
    unfold map_record_fields at h
    cases happ : applyTag st (key, value) with
    | ok st1 =>
      rw [happ] at h
      exact ih st1 st' (applyTag_policyInv st st1 key value hinv happ) h
    | error e =>
      rw [happ] at h
      cases h

/-! ### Unfolding lemmas for the resolver -/

theorem lookup_miss (st : DmarcState) (dns : String → DnsResult)
    (host : String)
    (h : dns ("_dmarc." ++ host) = DnsResult.nxdomain ∨
         dns ("_dmarc." ++ host) = DnsResult.noAnswer) :
    lookup_receiver_policy st dns host =
      Except.ok (st, Value.vpolicy ReceiverPolicy.noDmarc) := by
  rcases h with h | h <;>
    · simp only [lookup_receiver_policy]
      rw [h]

theorem lookup_found (st : DmarcState) (dns : String → DnsResult)
    (host ans : String)
    (hdns : dns ("_dmarc." ++ host) = DnsResult.found ans) :
    lookup_receiver_policy st dns host =
      (if startsWithL "\"v=DMARC1".data ans.data then
        match answer_to_dict ans with
        | Except.error e => Except.error e
        | Except.ok d =>
          match map_record_fields
              { st with record := Value.vstr ans, parsed_record := d } d with
          | Except.error e => Except.error e
          | Except.ok st1 =>
            if pyTruthy st1.policy then Except.ok (st1, st1.policy)
            else Except.error Err.policyNotSet
      else Except.error (Err.unknownVersion ans)) := by
  simp only [lookup_receiver_policy]
  rw [hdns]

/-! ### Claim theorems -/

/-- C1: evaluation of `__map_record_fields` at unrecognized alignment-mode
    values.  The claim says both `adkim` and `aspf` keep the default
    `Relaxed` when the value is not an `AlignmentMode` name; the code
    instead stores the raw string for `adkim` and raises `KeyError` for
    `aspf` (the precedence slip flagged in §9 of the spec), while
    recognized values are stored as the corresponding member for both
    tags. -/
theorem c1_alignment_eval :
    map_record_fields initDmarc [("adkim", "junk")] =
      Except.ok { initDmarc with adkim := Value.vstr "junk" }
    ∧ map_record_fields initDmarc [("aspf", "junk")] =
      Except.error (Err.keyError "junk")
    ∧ map_record_fields initDmarc [("adkim", "strict"), ("aspf", "strict")] =
      Except.ok { initDmarc with adkim := Value.valign AlignmentMode.strict,
                                 aspf := Value.valign AlignmentMode.strict }
    ∧ Value.vstr "junk" ≠ Value.valign AlignmentMode.relaxed :=
  ⟨rfl, rfl, rfl, by decide⟩

/-- C2 (counterexample): two successive resolutions on the same `Dmarc`
    object share its mutable attributes: the `rua` addresses decoded from
    the first answer are still present in the state produced by the second
    answer, which carries no `rua` tag. -/
theorem c2_counterexample :
    lookup_receiver_policy initDmarc dnsA "x.example" =
      Except.ok (stA, Value.vpolicy ReceiverPolicy.reject)
    ∧ lookup_receiver_policy stA dnsB "x.example" =
      Except.ok (stB, Value.vpolicy ReceiverPolicy.none)
    ∧ stB.rua = Value.vaddrs [{ plain_address := "mailto:a@x",
                                address := "mailto:a@x",
                                size_limit := Option.none }]
    ∧ initDmarc.rua = Value.vnone :=
  ⟨rfl, rfl, rfl, rfl⟩

/-- C2 (amended): the resolver keeps one mutable record shared across
    resolutions; a field decoded in an earlier resolution persists into a
    later one whenever the later answer carries no tag for it — here, the
    `rua` attribute is unchanged by decoding any tag dict without a `rua`
    key. -/
theorem c2_rua_persists (st st' : DmarcState) (d : List (String × String))
    (hd : dictHas d "rua" = false)
    (h : map_record_fields st d = Except.ok st') :
    st'.rua = st.rua := by
  apply map_record_fields_preserves_rua d st st' _ h
  intro kv hkv
  have := (List.any_eq_false).mp hd kv hkv
  simpa using this

/-- C2 (amended) witness at a concrete input. -/
theorem c2_rua_persists_witness : stC2w.rua = initDmarc.rua :=
  c2_rua_persists initDmarc stC2w [("p", "none")] (by decide) rfl

/-- C5: a DNS answer string that does not start with the literal
    `"v=DMARC1` prefix (the version tag immediately after the record's
    opening double quote) makes `lookup_receiver_policy` fail with the
    unknown-DMARC-version error rather than return any policy. -/
theorem c5_unknown_version (st : DmarcState) (dns : String → DnsResult)
    (host ans : String)
    (hdns : dns ("_dmarc." ++ host) = DnsResult.found ans)
    (hv : startsWithL "\"v=DMARC1".data ans.data = false) :
    lookup_receiver_policy st dns host =
      Except.error (Err.unknownVersion ans) := by
  rw [lookup_found st dns host ans hdns, hv]
  simp

/-- C5 witness at a concrete input. -/
theorem c5_unknown_version_witness :
    lookup_receiver_policy initDmarc dns5 "x.example" =
      Except.error (Err.unknownVersion ans5) :=
  c5_unknown_version initDmarc dns5 "x.example" ans5 rfl (by decide)

/-- C7: when the TXT query on `_dmarc.<host>` signals NXDOMAIN or
    no-answer, `lookup_receiver_policy` returns the `noDmarc` sentinel as a
    normal result (state unchanged), raising no error. -/
theorem c7_no_record (st : DmarcState) (dns : String → DnsResult)
    (host : String)
    (h : dns ("_dmarc." ++ host) = DnsResult.nxdomain ∨
         dns ("_dmarc." ++ host) = DnsResult.noAnswer) :
    lookup_receiver_policy st dns host =
      Except.ok (st, Value.vpolicy ReceiverPolicy.noDmarc) :=
  lookup_miss st dns host h

/-- C7 witness at a concrete input. -/
theorem c7_no_record_witness :
    lookup_receiver_policy initDmarc dns7 "x.example" =
      Except.ok (initDmarc, Value.vpolicy ReceiverPolicy.noDmarc) :=
  c7_no_record initDmarc dns7 "x.example" (Or.inl rfl)

/-- C8: `should_check` returns true whenever the `percent` attribute is
    absent (`None`) or zero; otherwise, for a draw from `[0, 99]`, it
    returns true exactly when the draw is strictly below `percent` — so
    with `percent = 100` it returns true on every possible draw. -/
theorem c8_sampling (st : DmarcState) (draw : Int)
    (hdraw : 0 ≤ draw ∧ draw ≤ 99) :
    ((st.percent = Value.vnone ∨ st.percent = Value.vint 0) →
        should_check st draw = true)
    ∧ (∀ m : Int, st.percent = Value.vint m → m ≠ 0 →
        (should_check st draw = true ↔ draw < m))
    ∧ (st.percent = Value.vint 100 → should_check st draw = true) := by
  refine ⟨?_, ?_, ?_⟩
  · rintro (h | h) <;> simp [should_check, pyTruthy, h]
  · rintro m h hm
    simp [should_check, pyTruthy, h, hm]
  · intro h
    have hlt : draw < (100 : Int) := lt_of_le_of_lt hdraw.2 (by norm_num)
    simp [should_check, pyTruthy, h, hlt]

/-- C8 witness at a concrete input: `percent = 100`, draw `57`. -/
theorem c8_sampling_witness : should_check st8 57 = true :=
  (c8_sampling st8 57 ⟨by decide, by decide⟩).2.2 rfl

/-- C3 (counterexample): for the segment `rua=mailto:a=b@x` the parser does
    not bind `rua` to the whole text after the first `=`; it binds it to
    `mailto:a`, the chunk between the first and second `=`. -/
theorem c3_counterexample :
    answer_to_dict "\"v=DMARC1; rua=mailto:a=b@x\"" =
      Except.ok [("v", "DMARC1"), ("rua", "mailto:a")]
    ∧ dictGet [("v", "DMARC1"), ("rua", "mailto:a")] "rua" =
      Option.some "mailto:a"
    ∧ ("mailto:a" : String) ≠ "mailto:a=b@x" :=
  ⟨rfl, rfl, by decide⟩

/-- C3 (amended): the tag-value parser splits each segment on every `=`
    and keeps the first two chunks, so a tag whose value contains `=` is
    bound to the text between the first and second `=` of the segment
    (text after the second `=` is dropped).  Stated for a record with one
    segment `t=v1=v2` over whitespace-free, quote-free, semicolon-free
    characters where `t` and `v1` are also `=`-free. -/
theorem c3_second_chunk (t v1 v2 : List Char)
    (ht0 : t ≠ [])
    (ht : ∀ c ∈ t, isPySpace c = false ∧ c ≠ ';' ∧ c ≠ '"' ∧ c ≠ '=')
    (hv1 : ∀ c ∈ v1, isPySpace c = false ∧ c ≠ ';' ∧ c ≠ '"' ∧ c ≠ '=')
    (hv2 : ∀ c ∈ v2, isPySpace c = false ∧ c ≠ ';' ∧ c ≠ '"') :
    answer_to_dict
        (⟨'"' :: ((t ++ '=' :: (v1 ++ '=' :: v2)) ++ ['"'])⟩ : String)
      = Except.ok [((⟨t⟩ : String), (⟨v1⟩ : String))] := by
  have hm : ∀ x ∈ t ++ '=' :: (v1 ++ '=' :: v2),
      isPySpace x = false ∧ x ≠ ';' ∧ x ≠ '"' := by
    intro x hx
    rcases List.mem_append.mp hx with hx | hx
    · exact ⟨(ht x hx).1, (ht x hx).2.1, (ht x hx).2.2.1⟩
    · rcases List.mem_cons.mp hx with rfl | hx
      · exact ⟨by decide, by decide, by decide⟩
      rcases List.mem_append.mp hx with hx | hx
      · exact ⟨(hv1 x hx).1, (hv1 x hx).2.1, (hv1 x hx).2.2.1⟩
      rcases List.mem_cons.mp hx with rfl | hx
      · exact ⟨by decide, by decide, by decide⟩
      exact hv2 x hx
  have hq : ∀ x ∈ t ++ '=' :: (v1 ++ '=' :: v2),
      (fun c => decide (c = '"')) x = false := fun x hx =>
    decide_eq_false (hm x hx).2.2
  have hsp : ∀ x ∈ t ++ '=' :: (v1 ++ '=' :: v2),
      (fun c => decide (c = ' ')) x = false := by
    intro x hx
    apply decide_eq_false
    intro heq
    have h1 := (hm x hx).1
    rw [heq] at h1
    exact absurd h1 (by decide)
  have hsemi : ∀ x ∈ t ++ '=' :: (v1 ++ '=' :: v2), x ≠ ';' :=
    fun x hx => (hm x hx).2.1
  have e1 : pyStrip (fun c => c = '"')
      ('"' :: ((t ++ '=' :: (v1 ++ '=' :: v2)) ++ ['"'])) =
      t ++ '=' :: (v1 ++ '=' :: v2) :=
    pyStrip_wrap _ '"' _ (by decide) hq
  have e2 : pyStrip (fun c => c = ' ') (t ++ '=' :: (v1 ++ '=' :: v2)) =
      t ++ '=' :: (v1 ++ '=' :: v2) := pyStrip_all_false _ _ hsp
  have e3 : pySplit ';' (t ++ '=' :: (v1 ++ '=' :: v2)) =
      [t ++ '=' :: (v1 ++ '=' :: v2)] := pySplit_no_sep ';' _ hsemi
  have e4 : pySplit '=' (t ++ '=' :: (v1 ++ '=' :: v2)) =
      t :: v1 :: pySplit '=' v2 := by
    rw [pySplit_sep_append '=' t (v1 ++ '=' :: v2)
      (fun x hx => (ht x hx).2.2.2)]
    rw [pySplit_sep_append '=' v1 v2 (fun x hx => (hv1 x hx).2.2.2)]
  have e5 : pyStrip isPySpace t = t :=
    pyStrip_all_false isPySpace t (fun x hx => (ht x hx).1)
  have e6 : pyStrip isPySpace v1 = v1 :=
    pyStrip_all_false isPySpace v1 (fun x hx => (hv1 x hx).1)
  have hne : (t ++ '=' :: (v1 ++ '=' :: v2)).isEmpty = false := by
    cases t with
    | nil => exact absurd rfl ht0
    | cons a s => rfl
  simp only [answer_to_dict]
  rw [e1, e2, e3]
  rw [show List.filter (fun s => !s.isEmpty)
        [t ++ '=' :: (v1 ++ '=' :: v2)] =
      [t ++ '=' :: (v1 ++ '=' :: v2)] by simp [List.filter, hne]]
  rw [List.map_cons, List.map_nil, e4]
  rw [show decodeRawTags [t :: v1 :: pySplit '=' v2] =
      Except.ok [((⟨pyStrip isPySpace t⟩ : String),
                  (⟨pyStrip isPySpace v1⟩ : String))] from rfl]
  rw [e5, e6]
  rfl

/-- C3 (amended) witness at the concrete segment `rua=mailto:a=b@x`. -/
theorem c3_second_chunk_witness :
    answer_to_dict
        (⟨'"' :: (("rua".data ++ '=' :: ("mailto:a".data ++ '=' :: "b@x".data))
          ++ ['"'])⟩ : String) =
      Except.ok [((⟨"rua".data⟩ : String), (⟨"mailto:a".data⟩ : String))] :=
  c3_second_chunk "rua".data "mailto:a".data "b@x".data (by decide)
    (by decide) (by decide) (by decide)

/-- C4 (counterexample): an answer that passes the version check and has no
    `p` tag need not fail with the policy-not-set error: with `pct=abc` the
    decoder fails first with the `int(value)` error. -/
theorem c4_counterexample :
    startsWithL "\"v=DMARC1".data ans4.data = true
    ∧ answer_to_dict ans4 = Except.ok [("v", "DMARC1"), ("pct", "abc")]
    ∧ dictHas [("v", "DMARC1"), ("pct", "abc")] "p" = false
    ∧ lookup_receiver_policy initDmarc dns4 "x.example" =
        Except.error (Err.valueError "abc")
    ∧ Err.valueError "abc" ≠ Err.policyNotSet :=
  ⟨by decide, rfl, by decide, rfl, by decide⟩

/-- C4 (amended): when the answer passes the version check, its tag dict
    decodes without error, it contains no `p` tag, and the decode starts
    from a state whose `policy` is unset (the fresh state), decoding fails
    with the policy-not-set error and returns no record or sentinel
    policy. -/
theorem c4_policy_not_set (st : DmarcState) (dns : String → DnsResult)
    (host ans : String) (d : List (String × String)) (st1 : DmarcState)
    (hdns : dns ("_dmarc." ++ host) = DnsResult.found ans)
    (hfresh : st.policy = Value.vnone)
    (hv : startsWithL "\"v=DMARC1".data ans.data = true)
    (hparse : answer_to_dict ans = Except.ok d)
    (hp : dictHas d "p" = false)
    (hmap : map_record_fields
        { st with record := Value.vstr ans, parsed_record := d } d =
      Except.ok st1) :
    lookup_receiver_policy st dns host = Except.error Err.policyNotSet := by
  have hfree : ∀ kv ∈ d, kv.1 ≠ "p" := by
    intro kv hkv
    have := (List.any_eq_false).mp hp kv hkv
    simpa using this
  have hpol : st1.policy = Value.vnone := by
    have := map_record_fields_preserves_policy d
      { st with record := Value.vstr ans, parsed_record := d } st1 hfree hmap
    rw [this]
    exact hfresh
  rw [lookup_found st dns host ans hdns, hv, if_pos rfl, hparse]
  dsimp only
  rw [hmap]
  dsimp only
  rw [hpol]
  rfl

/-- C4 (amended) witness: `"v=DMARC1; sp=reject"` decodes cleanly, has no
    `p` tag, and fails with the policy-not-set error. -/
theorem c4_policy_not_set_witness :
    lookup_receiver_policy initDmarc dns4w "x.example" =
      Except.error Err.policyNotSet :=
  c4_policy_not_set initDmarc dns4w "x.example" ans4w d4w st4w rfl rfl
    (by decide) rfl (by decide) rfl

/-- C6: when the first lookup returns the `noDmarc` sentinel, the resolver
    computes the organizational domain of the (normalized) host with the
    injected suffix resolver and returns the result of exactly one further
    lookup unchanged; the query trace holds exactly the two DNS names, so
    no third lookup occurs. -/
theorem c6_fallback (st st1 : DmarcState) (dns : String → DnsResult)
    (filePsl psl : String → String) (host sans : String)
    (hsans : sans = (if host.data.take 7 ≠ "_dmarc.".data then host
      else (⟨host.data.drop 7⟩ : String)))
    (hfirst : lookup_receiver_policy st dns sans =
      Except.ok (st1, Value.vpolicy ReceiverPolicy.noDmarc))
    (hpsl : st1.psl = Option.some psl) :
    receiver_policy st dns filePsl host =
      lookup_receiver_policy st1 dns (psl sans)
    ∧ receiver_policy_queries st dns filePsl host =
      ["_dmarc." ++ sans, "_dmarc." ++ psl sans] := by
  constructor
  · simp only [receiver_policy]
    rw [← hsans, hfirst]
    simp [hpsl]
  · simp only [receiver_policy_queries]
    rw [← hsans, hfirst]
    simp [hpsl]

/-- C6 witness: host with no record, organizational domain resolved by the
    injected suffix resolver. -/
theorem c6_fallback_witness :
    receiver_policy stP dnsW pslW "sub.example.com" =
      lookup_receiver_policy stP dnsW (pslW "sub.example.com")
    ∧ receiver_policy_queries stP dnsW pslW "sub.example.com" =
      ["_dmarc." ++ "sub.example.com", "_dmarc." ++ pslW "sub.example.com"] :=
  c6_fallback stP stP dnsW pslW pslW "sub.example.com" "sub.example.com"
    (by decide) rfl rfl

/-- C9: on every non-raising path of `lookup_receiver_policy` the returned
    value is a `ReceiverPolicy` member — the closing
    `assert isinstance(retval, ReceiverPolicy)` holds, including when an
    unrecognized `p` value was substituted by the `noDmarc` sentinel —
    provided the state's `policy` attribute has the shape established by
    `__init__` (`policyInv`). -/
theorem c9_assert_holds (st st' : DmarcState) (dns : String → DnsResult)
    (host : String) (v : Value)
    (hinv : policyInv st)
    (h : lookup_receiver_policy st dns host = Except.ok (st', v)) :
    isReceiverPolicyValue v = true := by
  cases hdns : dns ("_dmarc." ++ host) with
  | nxdomain =>
    rw [lookup_miss st dns host (Or.inl hdns)] at h
    cases h
    rfl
  | noAnswer =>
    rw [lookup_miss st dns host (Or.inr hdns)] at h
    cases h
    rfl
  | failure =>
    simp only [lookup_receiver_policy] at h
    rw [hdns] at h
    cases h
  | found ans =>
    rw [lookup_found st dns host ans hdns] at h
    split_ifs at h with hv
    cases hparse : answer_to_dict ans with
    | error e =>
      rw [hparse] at h
      cases h
    | ok d =>
      rw [hparse] at h
      dsimp only at h
      cases hmap : map_record_fields
          { st with record := Value.vstr ans, parsed_record := d } d with
      | error e =>
        rw [hmap] at h
        cases h
      | ok st1 =>
        rw [hmap] at h
        dsimp only at h
        have hinv0 : policyInv
            { st with record := Value.vstr ans, parsed_record := d } := hinv
        have hinv1 : policyInv st1 :=
          map_record_fields_policyInv d _ st1 hinv0 hmap
        split_ifs at h with htr
        cases h
        rcases hinv1 with h0 | ⟨p, hp⟩
        · rw [h0] at htr
          exact absurd htr (by decide)
        · rw [hp]
          rfl

/-- C9 witness: an answer whose `p` value is unrecognized returns the
    `noDmarc` sentinel, which is a `ReceiverPolicy` member. -/
theorem c9_assert_holds_witness :
    isReceiverPolicyValue (Value.vpolicy ReceiverPolicy.noDmarc) = true :=
  c9_assert_holds initDmarc st9 dns9 "x.example"
    (Value.vpolicy ReceiverPolicy.noDmarc) (Or.inl rfl) rfl

/-- C10: a `rua`/`ruf` token whose `!`-split yields three or more chunks
    constructs a `ReportAddress` whose address is the text before the first
    `!` and whose size limit is absent (the limit is recorded only when the
    split yields exactly two chunks), and construction never raises. -/
theorem c10_report_address (xs ys zs : List Char)
    (hx : ∀ c ∈ xs, c ≠ '!') (hy : ∀ c ∈ ys, c ≠ '!') :
    mkReportAddressE (⟨xs ++ '!' :: (ys ++ '!' :: zs)⟩ : String) =
      Except.ok { plain_address := (⟨xs ++ '!' :: (ys ++ '!' :: zs)⟩ : String),
                  address := (⟨xs⟩ : String),
                  size_limit := Option.none }
    ∧ (∀ a : String, ∃ r, mkReportAddressE a = Except.ok r) := by
  constructor
  · obtain ⟨w, rest, hw⟩ := List.exists_cons_of_ne_nil (pySplit_ne_nil '!' zs)
    unfold mkReportAddressE
    rw [show (⟨xs ++ '!' :: (ys ++ '!' :: zs)⟩ : String).data
        = xs ++ '!' :: (ys ++ '!' :: zs) from rfl]
    rw [pySplit_sep_append '!' xs (ys ++ '!' :: zs) hx,
      pySplit_sep_append '!' ys zs hy, hw]
    rfl
  · intro a
    obtain ⟨w, rest, hw⟩ :=
      List.exists_cons_of_ne_nil (pySplit_ne_nil '!' a.data)
    unfold mkReportAddressE
    rw [hw]
    cases rest with
    | nil => exact ⟨_, rfl⟩
    | cons c1 rest2 =>
      cases rest2 with
      | nil => exact ⟨_, rfl⟩
      | cons c2 rest3 => exact ⟨_, rfl⟩

/-- C10 witness at the concrete token `mailto:a!10m!x`. -/
theorem c10_report_address_witness :
    mkReportAddressE
        (⟨"mailto:a".data ++ '!' :: ("10m".data ++ '!' :: "x".data)⟩ : String)
      = Except.ok
          { plain_address :=
              (⟨"mailto:a".data ++ '!' :: ("10m".data ++ '!' :: "x".data)⟩ :
                String),
            address := (⟨"mailto:a".data⟩ : String),
            size_limit := Option.none } :=
  (c10_report_address "mailto:a".data "10m".data "x".data (by decide)
    (by decide)).1

end GsDmarc
